import Mathlib

/-!
Shallow embedding of the ClimaMetrics thermal-comfort indicator engine
(`src/indicators.py` and `src/powerbi_exporter.py`) together with theorems
settling the specification claims about it.

Conventions of the embedding:
* A pandas cell is `Option ℚ` (or `Option ℝ` for the wet-bulb based
  Discomfort Index); `none` models `NaN`.
* The long dataframe produced by `ThermalIndicators._load_energyplus_data`
  is a `List DataRow`.
* A pandas wide dataframe (`DateTime × Zone`) is a `Wide α`: an index list,
  a column list and a cell function.
* Timestamps are encoded as natural numbers through `dtEnc`
  (lexicographic in month, day, hour, minute, second for a fixed year),
  matching the chronological order pandas uses for a `DatetimeIndex`
  within one year.
-/

namespace ClimaMetrics

/-- A row of the combined long dataframe built by
`ThermalIndicators._load_energyplus_data`: one zone at one timestamp.
`none` models a NaN cell. -/
structure DataRow where
  dateTime : ℕ
  zone : String
  operativeTemperature : Option ℚ
  relativeHumidity : Option ℚ
  occupancy : Option ℚ
  outdoorDryBulb : Option ℚ
deriving DecidableEq, Repr

/-- Lexicographic encoding of a month/day/time within the (fixed) year,
mirroring comparison of `pd.Timestamp`s of a single year. -/
def dtEnc (month day hour minute second : ℕ) : ℕ :=
  (((month * 32 + day) * 24 + hour) * 60 + minute) * 60 + second

/-- A wide dataframe: `DateTime` index, zone columns, and a cell lookup.
`cell t z = none` models a NaN (or absent) cell. -/
structure Wide (α : Type) where
  index : List ℕ
  cols : List String
  cell : ℕ → String → Option α

/-- Arithmetic mean of a list of rationals; `none` on the empty list
(pandas `mean` of an empty/all-NaN collection is NaN). -/
def meanQ (xs : List ℚ) : Option ℚ :=
  if xs = [] then none else some (xs.sum / xs.length)

/-- The long entries fed to a pivot: `(DateTime, Zone, value)`. -/
abbrev Entry (α : Type) := ℕ × String × Option α

/-- `pandas.pivot_table`: NaN values are dropped, the index/columns are the
timestamps/zones that still carry data, and each `(t, z)` cell aggregates
the surviving matching values with `agg` (`agg [] = none`: a hole in the
cross product is NaN). -/
def pivotAgg {α : Type} (agg : List α → Option α) (entries : List (Entry α)) : Wide α :=
  { index := (entries.filterMap fun e => if e.2.2.isSome then some e.1 else none).dedup
    cols := (entries.filterMap fun e => if e.2.2.isSome then some e.2.1 else none).dedup
    cell := fun t z =>
      agg (entries.filterMap fun e => if e.1 = t ∧ e.2.1 = z then e.2.2 else none) }

/-- `aggfunc='mean'` of `pivot_table`. -/
def aggMean : List ℚ → Option ℚ := meanQ

/-- `aggfunc='first'` of `pivot_table`. -/
def aggFirst {α : Type} : List α → Option α := List.head?

/-- `aggfunc='sum'` of `pivot_table` (`none` kept for an absent group so that
a later `fillna` is what produces the 0, as in pandas). -/
def aggSum : List ℚ → Option ℚ :=
  fun xs => if xs = [] then none else some xs.sum

/-- `DataFrame.fillna d`: every NaN cell is replaced by the default `d`. -/
def fillna {α : Type} (d : α) (g : Wide α) : Wide α :=
  { g with cell := fun t z => some ((g.cell t z).getD d) }

/-- Turn the long dataframe into pivot entries for a per-row value `f`. -/
def entriesOf {α : Type} (f : DataRow → Option α) (rows : List DataRow) : List (Entry α) :=
  rows.map fun r => (r.dateTime, r.zone, f r)

/-- numpy truth value of `x > 0` for a possibly-NaN cell
(`NaN > 0` is `False`). -/
def gtZero : Option ℚ → Bool
  | some x => decide (0 < x)
  | none => false

/-! ### IOD (`ThermalIndicators.calculate_indoor_overheating_degree`) -/

/-- `self.COMFORT_TEMPERATURE` from `ThermalIndicators.__init__`. -/
def COMFORT_TEMPERATURE : ℚ := 26.5

/-- Per-row IOD value:
`np.where(Occupancy > 0, np.maximum(Operative_Temperature - 26.5, 0), np.nan)`.
When occupied but the operative temperature is NaN, `np.maximum` propagates
the NaN. -/
def iodValue (r : DataRow) : Option ℚ :=
  if gtZero r.occupancy then
    r.operativeTemperature.map fun top => max (top - COMFORT_TEMPERATURE) 0
  else none

/-- `calculate_indoor_overheating_degree`: per-row IOD pivoted to wide format
with `aggfunc='mean'` (no fill: unoccupied cells stay NaN). -/
def calculateIndoorOverheatingDegree (rows : List DataRow) : Wide ℚ :=
  pivotAgg aggMean (entriesOf iodValue rows)

/-! ### AWD (`ThermalIndicators.calculate_ambient_warmness_degree`) -/

/-- `self.BASE_OUTSIDE_TEMPERATURE`. -/
def BASE_OUTSIDE_TEMPERATURE : ℚ := 18

/-- Per-row AWD value:
`np.maximum(Outdoor_Dry_Bulb_Temperature - 18, 0)` (NaN propagates). -/
def awdValue (r : DataRow) : Option ℚ :=
  r.outdoorDryBulb.map fun t => max (t - BASE_OUTSIDE_TEMPERATURE) 0

/-- `calculate_ambient_warmness_degree`:
`groupby('DateTime')['AWD'].first()` renamed to a single `Environment`
column (groupby `first` returns the first non-NaN value of the group). -/
def calculateAmbientWarmnessDegree (rows : List DataRow) : Wide ℚ :=
  { index := (rows.map fun r => r.dateTime).dedup
    cols := ["Environment"]
    cell := fun t _ => ((rows.filter fun r => r.dateTime = t).filterMap awdValue).head? }

/-! ### ALPHA (`ThermalIndicators.calculate_alpha`) -/

/-- `awd_wide.reindex(iod_wide.index)`: lookup of the Environment value at a
timestamp, NaN when the timestamp is absent from AWD's index. -/
def reindexEnv (awdW : Wide ℚ) (t : ℕ) : Option ℚ :=
  if t ∈ awdW.index then awdW.cell t "Environment" else none

/-- `calculate_alpha`: per zone,
`np.where(awd != 0 & awd.notna(), iod / awd, np.nan)` over IOD's index. -/
def calculateAlpha (iodW awdW : Wide ℚ) : Wide ℚ :=
  { index := iodW.index
    cols := iodW.cols
    cell := fun t z =>
      match reindexEnv awdW t with
      | some a => if a ≠ 0 then (iodW.cell t z).map (· / a) else none
      | none => none }

/-! ### HI (`ThermalIndicators.calculate_heat_index`) -/

/-- Heat Index regression coefficients (V4, °C) from
`ThermalIndicators.__init__`. -/
def HI_C1 : ℚ := -8.784694

def HI_C2 : ℚ := 1.611394

def HI_C3 : ℚ := 2.338548

def HI_C4 : ℚ := -0.146116

def HI_C5 : ℚ := -0.012308

def HI_C6 : ℚ := -0.016424

def HI_C7 : ℚ := 0.002211

def HI_C8 : ℚ := 0.000725

def HI_C9 : ℚ := -0.000003

/-- The nine-coefficient regression polynomial of `calculate_heat_index`. -/
def hiPoly (top rh : ℚ) : ℚ :=
  HI_C1 + HI_C2 * top + HI_C3 * rh + HI_C4 * top * rh + HI_C5 * top ^ 2 +
    HI_C6 * rh ^ 2 + HI_C7 * top ^ 2 * rh + HI_C8 * top * rh ^ 2 +
    HI_C9 * top ^ 2 * rh ^ 2

/-- `Relative_Humidity.clip(0, 100)`. -/
def clipRh (rh : ℚ) : ℚ := min (max rh 0) 100

/-- Per-row Heat Index:
`np.where((T <= 26.7) | (RH < 40), T, polynomial)` after clipping RH.
NaN cases follow numpy: a NaN comparison is `False`, and arithmetic on NaN
yields NaN. -/
def hiValue (r : DataRow) : Option ℚ :=
  match r.operativeTemperature, r.relativeHumidity with
  | some top, some rh =>
      some (if top ≤ 26.7 ∨ clipRh rh < 40 then top else hiPoly top (clipRh rh))
  | some top, none => if top ≤ 26.7 then some top else none
  | none, _ => none

/-- `calculate_heat_index`: pivot with `aggfunc='mean'` then `.fillna(0)`. -/
def calculateHeatIndex (rows : List DataRow) : Wide ℚ :=
  fillna 0 (pivotAgg aggMean (entriesOf hiValue rows))

/-- `calculate_heat_index_category` (NaN → "INVALID DATA"). -/
def calculateHeatIndexCategory : Option ℚ → String
  | none => "INVALID DATA"
  | some hi =>
      if hi < 27 then "SAFE CONDITION"
      else if hi < 32 then "CAUTION"
      else if hi < 41 then "EXTREME CAUTION"
      else if hi < 54 then "DANGER"
      else "EXTREME DANGER"

/-- Per-row `HIlevel` value: the category string is always present because
`calculate_heat_index_category` maps NaN to `"INVALID DATA"`. -/
def hilevelValue (r : DataRow) : Option String :=
  some (calculateHeatIndexCategory (hiValue r))

/-- `calculate_heat_index_levels`: pivot with `aggfunc='first'` then
`.fillna("SAFE CONDITION")`. -/
def calculateHeatIndexLevels (rows : List DataRow) : Wide String :=
  fillna "SAFE CONDITION" (pivotAgg aggFirst (entriesOf hilevelValue rows))

/-! ### DI (`ThermalIndicators.calculate_discomfort_index`)

The wet-bulb temperature uses `arctan`, `sqrt` and a real exponent, so this
part of the embedding lives in `ℝ`. -/

/-- `calculate_wet_bulb_temperature` (Stull 2011):
`Tw = Ta*atan(0.151977*sqrt(RH+8.313659)) + atan(Ta+RH) - atan(RH-1.676331)
      + 0.00391838*RH**1.5*atan(0.023101*RH) - 4.686035`. -/
noncomputable def calculateWetBulbTemperature (ta rh : ℚ) : ℝ :=
  (ta : ℝ) * Real.arctan (0.151977 * Real.sqrt ((rh : ℝ) + 8.313659)) +
    Real.arctan ((ta : ℝ) + (rh : ℝ)) - Real.arctan ((rh : ℝ) - 1.676331) +
    0.00391838 * (rh : ℝ) ^ (1.5 : ℝ) * Real.arctan (0.023101 * (rh : ℝ)) -
    4.686035

/-- Per-row DI value: the wet bulb is only computed where both
`Outdoor_Dry_Bulb_Temperature` and `Relative_Humidity` are non-NaN
(`valid_mask`), and `DI = 0.5 * (Ta + Tw)` is NaN wherever either operand
is NaN. -/
noncomputable def diValue (r : DataRow) : Option ℝ :=
  match r.outdoorDryBulb, r.relativeHumidity with
  | some ta, some rh => some (0.5 * ((ta : ℝ) + calculateWetBulbTemperature ta rh))
  | _, _ => none

/-- `calculate_discomfort_index`: pivot with `aggfunc='first'` then
`.fillna(0)`. -/
noncomputable def calculateDiscomfortIndex (rows : List DataRow) : Wide ℝ :=
  fillna 0 (pivotAgg aggFirst (entriesOf diValue rows))

open Classical in
/-- `calculate_discomfort_index_category` (NaN → "INVALID DATA"). -/
noncomputable def calculateDiscomfortIndexCategory : Option ℝ → String
  | none => "INVALID DATA"
  | some di =>
      if di < 21 then "COMFORTABLE"
      else if di < 24 then "SLIGHTLY UNCOMFORTABLE"
      else if di < 27 then "UNCOMFORTABLE"
      else if di < 29 then "VERY UNCOMFORTABLE"
      else "DANGEROUS"

/-- Per-row `DIlevel` value (always a string, as for `HIlevel`). -/
noncomputable def dilevelValue (r : DataRow) : Option String :=
  some (calculateDiscomfortIndexCategory (diValue r))

/-- `calculate_discomfort_index_levels`: pivot with `aggfunc='first'` then
`.fillna("COMFORTABLE")`. -/
noncomputable def calculateDiscomfortIndexLevels (rows : List DataRow) : Wide String :=
  fillna "COMFORTABLE" (pivotAgg aggFirst (entriesOf dilevelValue rows))

/-! ### DDH (`ThermalIndicators.calculate_degree_weighted_discomfort_hours`) -/

/-- Stable insertion of a row into a time-sorted list (later rows go after
earlier rows with the same timestamp). -/
def insertByTime (r : DataRow) : List DataRow → List DataRow
  | [] => [r]
  | x :: xs => if r.dateTime < x.dateTime then r :: x :: xs else x :: insertByTime r xs

/-- `data_frame.sort_values(['Zone', 'DateTime'])` restricted to one zone:
stable sort by timestamp. -/
def sortByTime (rows : List DataRow) : List DataRow :=
  rows.foldl (fun acc r => insertByTime r acc) []

/-- Upper comfort limit from the running-mean outdoor temperature:
`T_op = 0.33*theta_rm + 18.8`, `Top_up = T_op + 4`, overridden to `18.0`
when `theta_rm < 10` (`np.where`), then `clip(upper=32.7)`. -/
def topUpOf (theta : ℚ) : ℚ :=
  min (if theta < 10 then 18 else (0.33 * theta + 18.8) + 4) 32.7

/-- Per-row DDH contribution given the running mean:
`(Operative_Temperature - Top_up).clip(lower=0) * (Occupancy > 0)`.
NaN anywhere in the arithmetic chain (including the running mean) yields
NaN, even at unoccupied rows (`NaN * 0 = NaN` in numpy). -/
def ddhVal (r : DataRow) (theta : Option ℚ) : Option ℚ :=
  match r.operativeTemperature, theta.map topUpOf with
  | some top, some tu => some (max (top - tu) 0 * (if gtZero r.occupancy then 1 else 0))
  | _, _ => none

/-- One zone's DDH entries, walking the time-sorted rows while accumulating
the outdoor history (most recent first).  The running mean is
`rolling(window=168, min_periods=1).mean()`: the mean of the non-NaN values
among the last (up to) 168 samples, NaN when none of them is present. -/
def zoneDdh (hist : List (Option ℚ)) : List DataRow → List (Entry ℚ)
  | [] => []
  | r :: rest =>
      let hist2 := r.outdoorDryBulb :: hist
      (r.dateTime, r.zone, ddhVal r (meanQ ((hist2.take 168).filterMap id))) ::
        zoneDdh hist2 rest

/-- The distinct zones of the long dataframe. -/
def zonesOf (rows : List DataRow) : List String :=
  (rows.map fun r => r.zone).dedup

/-- `calculate_degree_weighted_discomfort_hours`: per-zone rolling running
mean, per-row exceedance masked by occupancy, pivot with `aggfunc='sum'`,
`.fillna(0)`. -/
def calculateDegreeWeightedDiscomfortHours (rows : List DataRow) : Wide ℚ :=
  fillna 0 (pivotAgg aggSum
    (((zonesOf rows).map fun z =>
        zoneDdh [] (sortByTime (rows.filter fun r => r.zone = z))).flatten))

/-! ### PowerBI exporter (`src/powerbi_exporter.py`) -/

/-- A row of the ULTRA-LONG output
`Simulation | Indicator | DateTime | Zone | Value`.
`dateTime = none` models the empty datetime field of aggregated rows. -/
structure ExportRow where
  simulation : String
  indicator : String
  dateTime : Option ℕ
  zone : String
  value : Option ℚ
deriving DecidableEq, Repr

/-- `df_alpha.mean().mean()`: pandas takes the mean of each zone column
(skipping NaN; an all-NaN column gives NaN) and then the mean of the
non-NaN column means. -/
def alphatotValue (g : Wide ℚ) : Option ℚ :=
  meanQ (g.cols.filterMap fun z => meanQ (g.index.filterMap fun t => g.cell t z))

/-- `PowerBIExporter._calculate_alphatot`: the single aggregate row. -/
def calculateAlphatot (sim : String) (g : Wide ℚ) : ExportRow :=
  { simulation := sim, indicator := "alphatot", dateTime := none,
    zone := "values", value := alphatotValue g }

/-- `PowerBIExporter._aggregate_ddh`: `df_ddh.sum(axis=0)` (sum of the
non-NaN cells of each zone column), one output row per zone column with an
empty datetime. -/
def aggregateDdh (sim : String) (g : Wide ℚ) : List ExportRow :=
  g.cols.map fun z =>
    { simulation := sim, indicator := "DDH", dateTime := none, zone := z,
      value := some ((g.index.filterMap fun t => g.cell t z).sum) }

/-- Start bound of `_filter_by_date_range`: `"MM/DD"` combined with the year
at time `00:00:00`. -/
def monthDayStart (md : ℕ × ℕ) : ℕ := dtEnc md.1 md.2 0 0 0

/-- End bound of `_filter_by_date_range`: `"MM/DD"` extended to `23:59:59`. -/
def monthDayEnd (md : ℕ × ℕ) : ℕ := dtEnc md.1 md.2 23 59 59

/-- The date-window membership test of `_filter_by_date_range`
(`index >= start_datetime` and `index <= end_datetime`, each bound only
when supplied). -/
def inWindow (s e : Option (ℕ × ℕ)) (t : ℕ) : Bool :=
  (match s with
   | some sd => decide (monthDayStart sd ≤ t)
   | none => true) &&
  (match e with
   | some ed => decide (t ≤ monthDayEnd ed)
   | none => true)

/-- `PowerBIExporter._filter_by_date_range`: the wide grid unchanged when no
bound is given, otherwise its index clipped to the window. -/
def filterByDateRange {α : Type} (g : Wide α) (s e : Option (ℕ × ℕ)) : Wide α :=
  match s, e with
  | none, none => g
  | _, _ => { g with index := g.index.filter (inWindow s e) }

/-- The DDH branch of `PowerBIExporter.export_powerbi`: compute the wide
grid, filter it by the date range, then aggregate. -/
def powerbiDdhRows (sim : String) (rows : List DataRow) (s e : Option (ℕ × ℕ)) :
    List ExportRow :=
  aggregateDdh sim (filterByDateRange (calculateDegreeWeightedDiscomfortHours rows) s e)

/-- The ALPHA branch of `export_powerbi`: IOD and AWD are filtered by the
date range before `calculate_alpha` runs. -/
def powerbiAlphaWide (rows : List DataRow) (s e : Option (ℕ × ℕ)) : Wide ℚ :=
  calculateAlpha (filterByDateRange (calculateIndoorOverheatingDegree rows) s e)
    (filterByDateRange (calculateAmbientWarmnessDegree rows) s e)

/-- The alphatot row of `export_powerbi`, built from the filtered ALPHA
grid. -/
def powerbiAlphatotRow (sim : String) (rows : List DataRow) (s e : Option (ℕ × ℕ)) :
    ExportRow :=
  calculateAlphatot sim (powerbiAlphaWide rows s e)

/-! ### Pivot cell lemmas -/

/-- The list of values a pivot cell aggregates, phrased over the rows. -/
lemma matchList_eq {α : Type} (f : DataRow → Option α) (rows : List DataRow)
    (t : ℕ) (z : String) :
    (entriesOf f rows).filterMap
        (fun e => if e.1 = t ∧ e.2.1 = z then e.2.2 else none) =
      rows.filterMap (fun r => if r.dateTime = t ∧ r.zone = z then f r else none) := by
  rw [entriesOf, List.filterMap_map]
  rfl

/-- Sum of a constant list. -/
lemma sum_const (xs : List ℚ) (v : ℚ) (hall : ∀ x ∈ xs, x = v) :
    xs.sum = (xs.length : ℚ) * v := by
  induction xs with
  | nil => simp
  | cons a l ih =>
      rw [List.sum_cons, ih fun x hx => hall x (List.mem_cons_of_mem _ hx),
        hall a (List.mem_cons_self a l), List.length_cons]
      push_cast
      ring

/-- The mean of a nonempty constant list is that constant. -/
lemma meanQ_const {xs : List ℚ} {v : ℚ} (h0 : xs ≠ [])
    (hall : ∀ x ∈ xs, x = v) : meanQ xs = some v := by
  have hlen : (xs.length : ℚ) ≠ 0 :=
    Nat.cast_ne_zero.2 fun hh => h0 (List.length_eq_zero.1 hh)
  rw [meanQ, if_neg h0, sum_const xs v hall]
  rw [mul_comm, mul_div_assoc, div_self hlen, mul_one]

/-- `meanQ` on a visibly nonempty list, for concrete evaluations. -/
lemma meanQ_cons (a : ℚ) (l : List ℚ) :
    meanQ (a :: l) = some ((a :: l).sum / (a :: l).length) := by
  rw [meanQ, if_neg (List.cons_ne_nil _ _)]

/-- When the `(t, z)` group of the dataframe consists of (copies of) a single
row `r`, the mean-aggregated pivot cell is exactly `f r`. -/
lemma pivot_mean_cell_unique {f : DataRow → Option ℚ} {rows : List DataRow}
    {r : DataRow} (hr : r ∈ rows)
    (huniq : ∀ r' ∈ rows, r'.dateTime = r.dateTime → r'.zone = r.zone → r' = r) :
    (pivotAgg aggMean (entriesOf f rows)).cell r.dateTime r.zone = f r := by
  show aggMean _ = f r
  rw [matchList_eq]
  set L := rows.filterMap
    (fun r' => if r'.dateTime = r.dateTime ∧ r'.zone = r.zone then f r' else none) with hL
  have hmem : ∀ x ∈ L, f r = some x := by
    intro x hx
    rw [hL, List.mem_filterMap] at hx
    obtain ⟨r', hr', hfx⟩ := hx
    by_cases hcond : r'.dateTime = r.dateTime ∧ r'.zone = r.zone
    · rw [if_pos hcond] at hfx
      rwa [huniq r' hr' hcond.1 hcond.2] at hfx
    · rw [if_neg hcond] at hfx
      exact absurd hfx (by simp)
  cases hf : f r with
  | none =>
      have : L = [] := by
        refine List.eq_nil_iff_forall_not_mem.2 fun x hx => ?_
        have := hmem x hx
        rw [hf] at this
        exact absurd this (by simp)
      simp [aggMean, this, meanQ]
  | some v =>
      have hv : v ∈ L := by
        rw [hL, List.mem_filterMap]
        exact ⟨r, hr, by simp [hf]⟩
      exact meanQ_const (by intro h; rw [h] at hv; simp at hv)
        (fun x hx => by have := hmem x hx; rw [hf] at this; exact (Option.some_inj.1 this).symm)

/-- A fully-populated dataframe row used in concrete scenarios. -/
def exRow (t : ℕ) (z : String) (top occ : ℚ) : DataRow :=
  { dateTime := t, zone := z, operativeTemperature := some top,
    relativeHumidity := some 50, occupancy := some occ, outdoorDryBulb := some 20 }

/-- A row with an explicit relative humidity, for Heat Index scenarios. -/
def exRow2 (t : ℕ) (z : String) (top rh : ℚ) : DataRow :=
  { dateTime := t, zone := z, operativeTemperature := some top,
    relativeHumidity := some rh, occupancy := some 1, outdoorDryBulb := some 20 }

/-! ### Claim theorems: C4, C5, C10 -/

/-- C4. For every zone and timestamp (holding a single dataframe row), the
IOD value equals `max(operative_temperature - 26.5, 0)` when
`occupancy_count > 0` and is null (excluded, not zero) when the occupancy is
not positive. -/
theorem iod_occupancy_masked (rows : List DataRow) (r : DataRow) (top occ : ℚ)
    (hr : r ∈ rows)
    (huniq : ∀ r' ∈ rows, r'.dateTime = r.dateTime → r'.zone = r.zone → r' = r)
    (htop : r.operativeTemperature = some top)
    (hocc : r.occupancy = some occ) :
    (calculateIndoorOverheatingDegree rows).cell r.dateTime r.zone =
      if 0 < occ then some (max (top - 26.5) 0) else none := by
  rw [calculateIndoorOverheatingDegree, pivot_mean_cell_unique hr huniq,
    iodValue, hocc, htop]
  by_cases h : 0 < occ
  · rw [if_pos h]
    simp [gtZero, h]
    norm_num [COMFORT_TEMPERATURE]
  · rw [if_neg h]
    simp [gtZero, h]

/-- Scenario A of the spec: one zone, three hourly timesteps,
`occupancy = [1, 1, 0]`, `operative_temperature = [28, 30, 20]`,
`comfort_temp = 26.5` gives `IOD = [1.5, 3.5, null]`. -/
theorem iod_occupancy_masked_witness :
    (calculateIndoorOverheatingDegree
        [exRow 0 "A" 28 1, exRow 1 "A" 30 1, exRow 2 "A" 20 0]).cell 0 "A" =
      some 1.5 ∧
    (calculateIndoorOverheatingDegree
        [exRow 0 "A" 28 1, exRow 1 "A" 30 1, exRow 2 "A" 20 0]).cell 1 "A" =
      some 3.5 ∧
    (calculateIndoorOverheatingDegree
        [exRow 0 "A" 28 1, exRow 1 "A" 30 1, exRow 2 "A" 20 0]).cell 2 "A" =
      none := by
  refine ⟨?_, ?_, ?_⟩
  · have h := iod_occupancy_masked
      [exRow 0 "A" 28 1, exRow 1 "A" 30 1, exRow 2 "A" 20 0]
      (exRow 0 "A" 28 1) 28 1 (by decide) (by decide) rfl rfl
    simp only [exRow] at h ⊢
    rw [h]
    norm_num
  · have h := iod_occupancy_masked
      [exRow 0 "A" 28 1, exRow 1 "A" 30 1, exRow 2 "A" 20 0]
      (exRow 1 "A" 30 1) 30 1 (by decide) (by decide) rfl rfl
    simp only [exRow] at h ⊢
    rw [h]
    norm_num
  · have h := iod_occupancy_masked
      [exRow 0 "A" 28 1, exRow 1 "A" 30 1, exRow 2 "A" 20 0]
      (exRow 2 "A" 20 0) 20 0 (by decide) (by decide) rfl rfl
    simp only [exRow] at h ⊢
    rw [h]
    norm_num

/-- C5. Over IOD's index, ALPHA is null wherever IOD is null or the aligned
AWD value is null or 0, and elsewhere equals `IOD / AWD`; a zero or null
aligned AWD only yields a null cell (the embedding is a total function:
no error is raised). -/
theorem alpha_null_and_ratio (iodW awdW : Wide ℚ) (t : ℕ) (z : String) :
    ((iodW.cell t z = none ∨ reindexEnv awdW t = none ∨ reindexEnv awdW t = some 0) →
      (calculateAlpha iodW awdW).cell t z = none) ∧
    (∀ i a, iodW.cell t z = some i → reindexEnv awdW t = some a → a ≠ 0 →
      (calculateAlpha iodW awdW).cell t z = some (i / a)) := by
  constructor
  · rintro (h | h | h) <;> show (match reindexEnv awdW t with
      | some a => if a ≠ 0 then (iodW.cell t z).map (· / a) else none
      | none => none) = none
    · cases ha : reindexEnv awdW t with
      | none => rfl
      | some a =>
          by_cases h0 : a ≠ 0
          · simp [h0, h]
          · simp [h0]
    · rw [h]
    · rw [h]
      simp
  · intro i a hi ha h0
    show (match reindexEnv awdW t with
      | some a => if a ≠ 0 then (iodW.cell t z).map (· / a) else none
      | none => none) = some (i / a)
    rw [ha]
    simp [h0, hi]

/-- Concrete ALPHA grids exercising both branches of `alpha_null_and_ratio`. -/
def iodWex : Wide ℚ :=
  { index := [0, 1], cols := ["A"],
    cell := fun t z => if t = 0 ∧ z = "A" then some 3 else none }

/-- Concrete AWD (Environment) grid for the witness. -/
def awdWex : Wide ℚ :=
  { index := [0, 1], cols := ["Environment"],
    cell := fun t _ => if t = 0 then some 2 else some 0 }

/-- Witness: `ALPHA = 3 / 2` where IOD is 3 and the aligned AWD is 2, and
null where the aligned AWD is 0. -/
theorem alpha_null_and_ratio_witness :
    (calculateAlpha iodWex awdWex).cell 0 "A" = some (3 / 2) ∧
    (calculateAlpha iodWex awdWex).cell 1 "A" = none := by
  constructor
  · exact (alpha_null_and_ratio iodWex awdWex 0 "A").2 3 2 (by simp [iodWex])
      (by simp [reindexEnv, awdWex]) (by norm_num)
  · exact (alpha_null_and_ratio iodWex awdWex 1 "A").1
      (Or.inr (Or.inr (by simp [reindexEnv, awdWex])))

/-- C10. In the four wide grids exported by `calculate_heat_index`,
`calculate_discomfort_index`, `calculate_heat_index_levels` and
`calculate_discomfort_index_levels`, every `timestamp × zone` cell is
non-null: a cell that the pivot left empty is filled with the default
(`0`, `0`, `"SAFE CONDITION"`, `"COMFORTABLE"` respectively), and any other
cell keeps its aggregated value. -/
theorem exported_grids_never_null (rows : List DataRow) (t : ℕ) (z : String) :
    ((calculateHeatIndex rows).cell t z =
        some (((pivotAgg aggMean (entriesOf hiValue rows)).cell t z).getD 0) ∧
      (calculateHeatIndex rows).cell t z ≠ none) ∧
    ((calculateDiscomfortIndex rows).cell t z =
        some (((pivotAgg aggFirst (entriesOf diValue rows)).cell t z).getD 0) ∧
      (calculateDiscomfortIndex rows).cell t z ≠ none) ∧
    ((calculateHeatIndexLevels rows).cell t z =
        some (((pivotAgg aggFirst (entriesOf hilevelValue rows)).cell t z).getD
          "SAFE CONDITION") ∧
      (calculateHeatIndexLevels rows).cell t z ≠ none) ∧
    ((calculateDiscomfortIndexLevels rows).cell t z =
        some (((pivotAgg aggFirst (entriesOf dilevelValue rows)).cell t z).getD
          "COMFORTABLE") ∧
      (calculateDiscomfortIndexLevels rows).cell t z ≠ none) := by
  refine ⟨⟨rfl, ?_⟩, ⟨rfl, ?_⟩, ⟨rfl, ?_⟩, ⟨rfl, ?_⟩⟩ <;> simp [calculateHeatIndex,
    calculateDiscomfortIndex, calculateHeatIndexLevels,
    calculateDiscomfortIndexLevels, fillna]

/-! ### Claim C6: the Heat Index formula -/

/-- Strictly above the regression thresholds the Heat Index polynomial
strictly exceeds the temperature, so the identity fallback and the
regression branch never coincide. -/
lemma lt_hiPoly {top rh : ℚ} (ht : 26.7 < top) (h40 : 40 ≤ rh)
    (h100 : rh ≤ 100) : top < hiPoly top rh := by
  rw [hiPoly, HI_C1, HI_C2, HI_C3, HI_C4, HI_C5, HI_C6, HI_C7, HI_C8, HI_C9]
  have hs : (0 : ℚ) ≤ top - 267 / 10 := by
    norm_num at ht ⊢
    linarith
  have hu : (0 : ℚ) ≤ rh - 40 := by linarith
  have hu60 : (0 : ℚ) ≤ 100 - rh := by linarith
  nlinarith [sq_nonneg (top - 267 / 10 - 660293 / 356660),
    mul_nonneg hu hs, sq_nonneg (rh - 40),
    mul_nonneg (mul_nonneg hu hu) hs,
    mul_nonneg (mul_nonneg hu hs) hs,
    mul_nonneg (mul_nonneg (mul_nonneg hu hu) hs) hs,
    mul_nonneg (mul_nonneg (mul_nonneg hu60 hu) hs) hs]

/-- C6. For a zone/timestamp row with relative humidity already on the
0-100 scale, the exported Heat Index equals the operative temperature `T`
exactly when `T ≤ 26.7` or `RH < 40`, and otherwise equals the
nine-coefficient regression polynomial with the stated constants. -/
theorem heat_index_formula (rows : List DataRow) (r : DataRow) (top rh : ℚ)
    (hr : r ∈ rows)
    (huniq : ∀ r' ∈ rows, r'.dateTime = r.dateTime → r'.zone = r.zone → r' = r)
    (htop : r.operativeTemperature = some top)
    (hrh : r.relativeHumidity = some rh) (h0 : 0 ≤ rh) (h100 : rh ≤ 100) :
    (calculateHeatIndex rows).cell r.dateTime r.zone =
        some (if top ≤ 26.7 ∨ rh < 40 then top
          else -8.784694 + 1.611394 * top + 2.338548 * rh +
            -0.146116 * top * rh + -0.012308 * top ^ 2 + -0.016424 * rh ^ 2 +
            0.002211 * top ^ 2 * rh + 0.000725 * top * rh ^ 2 +
            -0.000003 * top ^ 2 * rh ^ 2) ∧
      ((calculateHeatIndex rows).cell r.dateTime r.zone = some top ↔
        top ≤ 26.7 ∨ rh < 40) := by
  have hclip : clipRh rh = rh := by
    rw [clipRh, max_eq_left h0, min_eq_left h100]
  have hval : hiValue r =
      some (if top ≤ 26.7 ∨ rh < 40 then top else hiPoly top rh) := by
    rw [hiValue, htop, hrh]
    simp only [hclip]
  have hcell : (calculateHeatIndex rows).cell r.dateTime r.zone =
      some (if top ≤ 26.7 ∨ rh < 40 then top else hiPoly top rh) := by
    show some (((pivotAgg aggMean (entriesOf hiValue rows)).cell
      r.dateTime r.zone).getD 0) = _
    rw [pivot_mean_cell_unique hr huniq, hval]
    rfl
  constructor
  · rw [hcell, hiPoly, HI_C1, HI_C2, HI_C3, HI_C4, HI_C5, HI_C6, HI_C7,
      HI_C8, HI_C9]
  · rw [hcell]
    constructor
    · intro h
      by_contra hcond
      rw [if_neg hcond] at h
      push_neg at hcond
      have hgt : top < hiPoly top rh :=
        lt_hiPoly (by linarith [hcond.1]) (by linarith [hcond.2]) h100
      exact absurd (Option.some_inj.1 h) (ne_of_gt hgt)
    · intro h
      rw [if_pos h]

/-- Witness for `heat_index_formula`: a single row with `T = 30`, `RH = 80`
falls in the regression branch and yields the exact polynomial value, while
`T = 25` is returned unchanged. -/
theorem heat_index_formula_witness :
    (calculateHeatIndex [exRow2 0 "A" 30 80]).cell 0 "A" =
        some (20441883 / 500000) ∧
      (calculateHeatIndex [exRow2 3 "B" 25 80]).cell 3 "B" = some 25 := by
  constructor
  · have h := (heat_index_formula [exRow2 0 "A" 30 80] (exRow2 0 "A" 30 80)
      30 80 (by decide) (by decide) rfl rfl (by norm_num) (by norm_num)).1
    simp only [exRow2] at h ⊢
    rw [h]
    norm_num
  · have h := (heat_index_formula [exRow2 3 "B" 25 80] (exRow2 3 "B" 25 80)
      25 80 (by decide) (by decide) rfl rfl (by norm_num) (by norm_num)).1
    simp only [exRow2] at h ⊢
    rw [h]
    norm_num

/-! ### Claim C1: ALPHATOT -/

/-- The claim's reading of ALPHATOT: the arithmetic mean of **all** non-null
alpha values across every zone and every timestamp of the grid. -/
def grandMeanAlpha (g : Wide ℚ) : Option ℚ :=
  meanQ ((g.index.map fun t => g.cols.filterMap fun z => g.cell t z).flatten)

/-- IOD grid for the ALPHATOT counterexample: zone A is occupied at both
timestamps, zone B only at the first. -/
def iodWc : Wide ℚ :=
  { index := [0, 1], cols := ["A", "B"],
    cell := fun t z =>
      if z = "A" then (if t = 0 then some 0 else if t = 1 then some 3 else none)
      else if z = "B" ∧ t = 0 then some 3 else none }

/-- AWD grid for the ALPHATOT counterexample: Environment value 1 at both
timestamps, so ALPHA coincides with IOD. -/
def awdWc : Wide ℚ :=
  { index := [0, 1], cols := ["Environment"],
    cell := fun t _ => if t ≤ 1 then some 1 else none }

/-- Counterexample to C1: on the alpha grid with zone means `3/2` (zone A,
values 0 and 3) and `3` (zone B, single value 3), `_calculate_alphatot`
returns the mean of the per-zone means `9/4 = 2.25`, not the mean `2` of
all non-null values. -/
theorem alphatot_not_grand_mean :
    alphatotValue (calculateAlpha iodWc awdWc) = some (9 / 4) ∧
      grandMeanAlpha (calculateAlpha iodWc awdWc) = some 2 ∧
      (9 : ℚ) / 4 ≠ 2 := by
  have hBA : ¬("B" : String) = "A" := by decide
  have hc00 : (calculateAlpha iodWc awdWc).cell 0 "A" = some 0 := by
    simp [calculateAlpha, reindexEnv, iodWc, awdWc]
  have hc01 : (calculateAlpha iodWc awdWc).cell 1 "A" = some 3 := by
    simp [calculateAlpha, reindexEnv, iodWc, awdWc]
  have hc10 : (calculateAlpha iodWc awdWc).cell 0 "B" = some 3 := by
    simp [calculateAlpha, reindexEnv, iodWc, awdWc, hBA]
  have hc11 : (calculateAlpha iodWc awdWc).cell 1 "B" = none := by
    simp [calculateAlpha, reindexEnv, iodWc, awdWc, hBA]
  have hidx : (calculateAlpha iodWc awdWc).index = [0, 1] := rfl
  have hcols : (calculateAlpha iodWc awdWc).cols = ["A", "B"] := rfl
  refine ⟨?_, ?_, by norm_num⟩
  · rw [alphatotValue, hidx, hcols]
    simp only [List.filterMap_cons, List.filterMap_nil, hc00, hc01, hc10, hc11,
      meanQ_cons]
    norm_num
  · rw [grandMeanAlpha, hidx, hcols]
    simp only [List.map_cons, List.map_nil, List.filterMap_cons,
      List.filterMap_nil, hc00, hc01, hc10, hc11, List.flatten_cons,
      List.flatten_nil]
    rw [show ([0, 3] ++ ([3] ++ []) : List ℚ) = [0, 3, 3] by simp, meanQ_cons]
    norm_num

/-- C1 amended: ALPHATOT is a single aggregate row (empty datetime, sentinel
zone `"values"`) whose value is the mean of the **per-zone means** of the
non-null alpha values of the (filtered) alpha grid — zones whose column has
no non-null value are skipped by the outer mean. -/
theorem alphatot_aggregate_row (sim : String) (rows : List DataRow)
    (s e : Option (ℕ × ℕ)) :
    (powerbiAlphatotRow sim rows s e).indicator = "alphatot" ∧
      (powerbiAlphatotRow sim rows s e).dateTime = none ∧
      (powerbiAlphatotRow sim rows s e).zone = "values" ∧
      (powerbiAlphatotRow sim rows s e).value =
        meanQ ((powerbiAlphaWide rows s e).cols.filterMap fun z =>
          meanQ ((powerbiAlphaWide rows s e).index.filterMap fun t =>
            (powerbiAlphaWide rows s e).cell t z)) :=
  ⟨rfl, rfl, rfl, rfl⟩

/-! ### Claim C3: date-range filtering -/

/-- C3. MM/DD date filtering keeps exactly the timestamps between
`start 00:00:00` and `end 23:59:59`, both ends inclusive; and for the
aggregated indicators the filter runs over the wide grid **before**
aggregation: the exported per-zone DDH value is the sum of the surviving
in-window cells only, and alphatot is computed from the filtered alpha
grid, whose whole index lies inside the window. -/
theorem filter_inclusive_before_aggregation (g : Wide ℚ) (sd ed : ℕ × ℕ)
    (sim : String) (rows : List DataRow) (t : ℕ) :
    (t ∈ (filterByDateRange g (some sd) (some ed)).index ↔
        t ∈ g.index ∧ dtEnc sd.1 sd.2 0 0 0 ≤ t ∧ t ≤ dtEnc ed.1 ed.2 23 59 59) ∧
      (powerbiDdhRows sim rows (some sd) (some ed) =
        (calculateDegreeWeightedDiscomfortHours rows).cols.map fun z =>
          { simulation := sim, indicator := "DDH", dateTime := none, zone := z,
            value := some ((((calculateDegreeWeightedDiscomfortHours rows).index.filter
                (inWindow (some sd) (some ed))).filterMap fun u =>
                  (calculateDegreeWeightedDiscomfortHours rows).cell u z).sum) }) ∧
      ((powerbiAlphatotRow sim rows (some sd) (some ed)).value =
        alphatotValue (powerbiAlphaWide rows (some sd) (some ed))) ∧
      (∀ u, u ∈ (powerbiAlphaWide rows (some sd) (some ed)).index →
        dtEnc sd.1 sd.2 0 0 0 ≤ u ∧ u ≤ dtEnc ed.1 ed.2 23 59 59) := by
  refine ⟨?_, rfl, rfl, ?_⟩
  · show t ∈ g.index.filter (inWindow (some sd) (some ed)) ↔ _
    simp [List.mem_filter, inWindow, monthDayStart, monthDayEnd, and_assoc]
  · intro u hu
    have : u ∈ (calculateIndoorOverheatingDegree rows).index.filter
        (inWindow (some sd) (some ed)) := hu
    rw [List.mem_filter] at this
    have hw := this.2
    rw [inWindow] at hw
    simp only [Bool.and_eq_true, decide_eq_true_eq] at hw
    exact ⟨hw.1, hw.2⟩

/-- Grid for the filter witness: one reading on each of June 21, 22, 23. -/
def gJune : Wide ℚ :=
  { index := [dtEnc 6 21 10 0 0, dtEnc 6 22 10 0 0, dtEnc 6 23 10 0 0],
    cols := ["A"], cell := fun _ _ => some 1 }

/-- Witness: filtering `gJune` to `06/22 .. 06/22` keeps the June 22
reading (the end bound reaches 23:59:59) and drops the June 21 one. -/
theorem filter_inclusive_before_aggregation_witness :
    dtEnc 6 22 10 0 0 ∈ (filterByDateRange gJune (some (6, 22)) (some (6, 22))).index ∧
      dtEnc 6 21 10 0 0 ∉ (filterByDateRange gJune (some (6, 22)) (some (6, 22))).index := by
  constructor
  · exact (filter_inclusive_before_aggregation gJune (6, 22) (6, 22) "S" []
      (dtEnc 6 22 10 0 0)).1.mpr ⟨by decide, by decide, by decide⟩
  · intro h
    have := (filter_inclusive_before_aggregation gJune (6, 22) (6, 22) "S" []
      (dtEnc 6 21 10 0 0)).1.mp h
    exact absurd this.2.1 (by decide)

/-! ### Claim C9: fatal configuration errors (`_load_energyplus_data`) -/

/-- A zone-variable specification from `indicators.zone_variables`: the
primary `column_pattern` and the ordered `fallback` patterns are templates
instantiated with the zone name. -/
structure VarSpec where
  pattern : String → String
  fallbacks : List (String → String)
  required : Bool

/-- An environmental-variable specification from
`indicators.environmental_variables` (no zone substitution). -/
structure EnvVarSpec where
  pattern : String
  required : Bool
deriving DecidableEq, Repr

/-- `_find_zone_columns` for one zone and one variable: the primary pattern
first, then the fallbacks in order; the first column present in the raw
table wins. -/
def resolveVar (cols : List String) (v : VarSpec) (zone : String) : Option String :=
  (v.pattern zone :: v.fallbacks.map fun f => f zone).find? fun c => decide (c ∈ cols)

/-- `_find_zone_columns`: a zone is kept only when at least one of its
variables resolved to a column. -/
def findZoneColumns (cols : List String) (zoneVars : List (String × VarSpec))
    (zones : List String) : List (String × List (String × String)) :=
  zones.filterMap fun z =>
    let zc := zoneVars.filterMap fun nv => (resolveVar cols nv.2 z).map fun c => (nv.1, c)
    if zc = [] then none else some (z, zc)

/-- The environmental-column loop of `_load_energyplus_data`: a missing
`required` column raises `ValueError` (modelled as `Except.error` carrying
the variable name); a missing optional column is skipped. -/
def resolveEnvColumns (cols : List String) :
    List (String × EnvVarSpec) → Except String (List (String × String))
  | [] => .ok []
  | nv :: rest =>
      if nv.2.pattern ∈ cols then
        (resolveEnvColumns cols rest).map fun l => (nv.1, nv.2.pattern) :: l
      else if nv.2.required then .error nv.1
      else resolveEnvColumns cols rest

/-- `_load_energyplus_data` up to the construction of the combined
dataframe: first the zero-resolvable-zones check
(`raise ValueError("No valid zones found ...")`), then the environmental
resolution; an `Except.error` means the computation aborted with no output. -/
def loadEnergyplusData (cols : List String) (zoneVars : List (String × VarSpec))
    (envVars : List (String × EnvVarSpec)) (zones : List String) :
    Except String (List (String × List (String × String)) × List (String × String)) :=
  let zc := findZoneColumns cols zoneVars zones
  if zc = [] then .error "No valid zones found in EnergyPlus output"
  else (resolveEnvColumns cols envVars).map fun env => (zc, env)

/-- A missing required environmental column always makes the environmental
loop raise. -/
lemma resolveEnvColumns_error (cols : List String)
    (envVars : List (String × EnvVarSpec))
    (h : ∃ nv ∈ envVars, nv.2.required = true ∧ nv.2.pattern ∉ cols) :
    ∃ msg, resolveEnvColumns cols envVars = .error msg := by
  induction envVars with
  | nil => simp at h
  | cons nv rest ih =>
      obtain ⟨w, hw, hreq, hmiss⟩ := h
      rw [List.mem_cons] at hw
      by_cases hmem : nv.2.pattern ∈ cols
      · have hrest : ∃ v ∈ rest, v.2.required = true ∧ v.2.pattern ∉ cols := by
          rcases hw with hw | hw
          · exact absurd (hw ▸ hmem) hmiss
          · exact ⟨w, hw, hreq, hmiss⟩
        obtain ⟨msg, hmsg⟩ := ih hrest
        exact ⟨msg, by rw [resolveEnvColumns, if_pos hmem, hmsg]; rfl⟩
      · by_cases hreq2 : nv.2.required = true
        · exact ⟨nv.1, by rw [resolveEnvColumns, if_neg hmem, if_pos hreq2]⟩
        · have hrest : ∃ v ∈ rest, v.2.required = true ∧ v.2.pattern ∉ cols := by
            rcases hw with hw | hw
            · exact absurd (hw ▸ hreq) hreq2
            · exact ⟨w, hw, hreq, hmiss⟩
          obtain ⟨msg, hmsg⟩ := ih hrest
          refine ⟨msg, ?_⟩
          rw [resolveEnvColumns, if_neg hmem, if_neg (by simp [hreq2]), hmsg]

/-- C9. A required environmental variable whose column is absent from the
raw table makes the whole load fail, and a zone-variable resolution in
which no requested zone resolves any variable fails with the
no-valid-zones configuration error; in both cases `loadEnergyplusData`
returns `Except.error`, so no indicator output exists. -/
theorem load_fails_on_missing_requirements (cols : List String)
    (zoneVars : List (String × VarSpec)) (envVars : List (String × EnvVarSpec))
    (zones : List String) :
    ((∃ nv ∈ envVars, nv.2.required = true ∧ nv.2.pattern ∉ cols) →
        ∃ msg, loadEnergyplusData cols zoneVars envVars zones = .error msg) ∧
      ((∀ z ∈ zones, ∀ nv ∈ zoneVars, resolveVar cols nv.2 z = none) →
        loadEnergyplusData cols zoneVars envVars zones =
          .error "No valid zones found in EnergyPlus output") := by
  constructor
  · intro h
    rw [loadEnergyplusData]
    by_cases hzc : findZoneColumns cols zoneVars zones = []
    · exact ⟨"No valid zones found in EnergyPlus output", by rw [if_pos hzc]⟩
    · obtain ⟨msg, hmsg⟩ := resolveEnvColumns_error cols envVars h
      exact ⟨msg, by rw [if_neg hzc, hmsg]; rfl⟩
  · intro h
    have hzc : findZoneColumns cols zoneVars zones = [] := by
      rw [findZoneColumns, List.filterMap_eq_nil_iff]
      intro z hz
      have : (zoneVars.filterMap fun nv =>
          (resolveVar cols nv.2 z).map fun c => (nv.1, c)) = [] := by
        rw [List.filterMap_eq_nil_iff]
        intro nv hnv
        rw [h z hz nv hnv]
        rfl
      simp only [this]
      rfl
    rw [loadEnergyplusData, if_pos hzc]

/-- Concrete zone-variable configuration for the witness. -/
def zvEx : List (String × VarSpec) :=
  [("air_temperature",
    { pattern := fun z => z ++ ":Zone Mean Air Temperature [C](Hourly)",
      fallbacks := [], required := true })]

/-- Concrete environmental-variable configuration for the witness. -/
def evEx : List (String × EnvVarSpec) :=
  [("outdoor_temperature",
    { pattern := "Environment:Site Outdoor Air Drybulb Temperature [C](Hourly)",
      required := true })]

/-- Witness: on a raw table holding only a `Date/Time` column, both fatal
branches of `load_fails_on_missing_requirements` fire. -/
theorem load_fails_on_missing_requirements_witness :
    (∃ msg, loadEnergyplusData ["Date/Time"] zvEx evEx ["Z1"] = .error msg) ∧
      loadEnergyplusData ["Date/Time"] zvEx evEx ["Z1"] =
        .error "No valid zones found in EnergyPlus output" := by
  constructor
  · refine (load_fails_on_missing_requirements ["Date/Time"] zvEx evEx ["Z1"]).1 ?_
    refine ⟨("outdoor_temperature",
      { pattern := "Environment:Site Outdoor Air Drybulb Temperature [C](Hourly)",
        required := true }), by simp [evEx], rfl, by decide⟩
  · refine (load_fails_on_missing_requirements ["Date/Time"] zvEx evEx ["Z1"]).2 ?_
    intro z hz nv hnv
    simp only [List.mem_singleton] at hz
    simp only [zvEx, List.mem_singleton] at hnv
    subst hz
    subst hnv
    rfl

/-! ### Claim C8: timestamp normalization (`_parse_datetime`)

The raw `Date/Time` labels are modelled as character lists and the string
processing of `_parse_datetime` / `fix_24_hour` is embedded at character
level (Python string semantics: substring search, split before the first
occurrence, strict `strptime` that rejects unconsumed characters and
validates the date in its default year 1900, `str.replace` of all
occurrences).  The model is row-local: `none` is a label that ends up NaT
and is dropped from the series. -/

/-- An absolute timestamp produced by `_parse_datetime`. -/
structure ParsedDT where
  year : ℕ
  month : ℕ
  day : ℕ
  hour : ℕ
  minute : ℕ
  second : ℕ
deriving DecidableEq, Repr

/-- The only whitespace occurring in EnergyPlus labels. -/
def isSpace (c : Char) : Bool := c = ' '

/-- Python `str.strip()`. -/
def stripEnds (s : List Char) : List Char :=
  ((s.dropWhile isSpace).reverse.dropWhile isSpace).reverse

/-- The end-of-day marker `" 24:00:00"` searched by `fix_24_hour`. -/
def eodMarker : List Char := [' ', '2', '4', ':', '0', '0', ':', '0', '0']

/-- `stripLeading pat s`: `some rest` exactly when `s` starts with `pat`. -/
def stripLeading : List Char → List Char → Option (List Char)
  | [], s => some s
  | _ :: _, [] => none
  | p :: ps, c :: cs => if c = p then stripLeading ps cs else none

/-- Split at the first occurrence of `pat`
(Python `pat in s` plus `s.split(pat)[0]`); `none` when absent. -/
def splitFirst (pat : List Char) : List Char → Option (List Char × List Char)
  | [] =>
      match stripLeading pat [] with
      | some r => some ([], r)
      | none => none
  | c :: cs =>
      match stripLeading pat (c :: cs) with
      | some r => some ([], r)
      | none =>
          match splitFirst pat cs with
          | some (pre, post) => some (c :: pre, post)
          | none => none

/-- Fuel-driven core of Python `str.replace` (all occurrences); the fuel is
the length of the string, which suffices for a nonempty pattern. -/
def replaceAllGo (pat repl : List Char) : ℕ → List Char → List Char
  | 0, s => s
  | _ + 1, [] => []
  | fuel + 1, c :: cs =>
      match stripLeading pat (c :: cs) with
      | some r => repl ++ replaceAllGo pat repl fuel r
      | none => c :: replaceAllGo pat repl fuel cs

/-- Python `s.replace(pat, repl)`. -/
def replaceAll (pat repl s : List Char) : List Char :=
  replaceAllGo pat repl s.length s

/-- Digit value of a character. -/
def digitVal (c : Char) : Option ℕ :=
  if '0' ≤ c ∧ c ≤ '9' then some (c.toNat - '0'.toNat) else none

/-- A greedy one-or-two digit numeric field, as in the `strptime` regular
expressions. -/
def parse2Digit : List Char → Option (ℕ × List Char)
  | [] => none
  | c :: cs =>
      match digitVal c with
      | none => none
      | some d1 =>
          match cs with
          | [] => some (d1, [])
          | c2 :: cs2 =>
              match digitVal c2 with
              | some d2 => some (d1 * 10 + d2, cs2)
              | none => some (d1, cs)

/-- Month lengths of the `strptime` default year 1900 — not a leap year. -/
def daysInMonth1900 (m : ℕ) : ℕ :=
  if m = 2 then 28
  else if m = 4 ∨ m = 6 ∨ m = 9 ∨ m = 11 then 30
  else 31

/-- `datetime.strptime(date_part, '%m/%d')`: the whole string must be
consumed (a trailing character raises `ValueError`) and the day is
validated against the non-leap default year 1900. -/
def strptimeMD (s : List Char) : Option (ℕ × ℕ) :=
  match parse2Digit s with
  | some (m, '/' :: rest) =>
      match parse2Digit rest with
      | some (d, []) =>
          if 1 ≤ m ∧ m ≤ 12 ∧ 1 ≤ d ∧ d ≤ daysInMonth1900 m then some (m, d)
          else none
      | _ => none
  | _ => none

/-- `dt + timedelta(days=1)` in the 1900 calendar followed by
`strftime('%m/%d ...')`: December 31 wraps to January 1 (of the same
rendered month/day space — the year is discarded by `strftime`). -/
def nextDay1900 (m d : ℕ) : ℕ × ℕ :=
  if d < daysInMonth1900 m then (m, d + 1)
  else if m = 12 then (1, 1)
  else (m + 1, 1)

/-- Zero-padded two-digit rendering used by `strftime('%m/%d %H:%M:%S')`. -/
def pad2 (n : ℕ) : List Char :=
  (if n < 10 then ['0'] else []) ++ Nat.toDigits 10 n

/-- The replacement text `" 00:00:00"`. -/
def zeroMarker : List Char := [' ', '0', '0', ':', '0', '0', ':', '0', '0']

/-- `fix_24_hour`: when `" 24:00:00"` occurs, parse everything before its
first occurrence with `strptime('%m/%d')`, add one day and render
`'%m/%d %H:%M:%S'` with time `00:00:00`; when that parse raises (for
example because the EnergyPlus double-space layout leaves a trailing space
on the date part), fall back to a plain replacement of `" 24:00:00"` by
`" 00:00:00"`, which keeps the same day. -/
def fix24Hour (s : List Char) : List Char :=
  match splitFirst eodMarker s with
  | none => s
  | some (datePart, _) =>
      match strptimeMD datePart with
      | some (m, d) =>
          pad2 (nextDay1900 m d).1 ++ '/' :: pad2 (nextDay1900 m d).2 ++ zeroMarker
      | none => replaceAll eodMarker zeroMarker s

/-- One `pd.to_datetime(..., format='%m/%d  %H:%M:%S')` attempt.  The
CPython/pandas `strptime` machinery turns literal whitespace in the format
into a `\s+` match, so the single-space and double-space formats accept
the same strings: month/day, whitespace, time, with field validation
(`%H ≤ 23` — an unfixed `24` never parses) and full consumption. -/
def parseMDHMS (s : List Char) : Option (ℕ × ℕ × ℕ × ℕ × ℕ) :=
  match parse2Digit s with
  | some (m, '/' :: rest) =>
      match parse2Digit rest with
      | some (d, ' ' :: rest2) =>
          match parse2Digit (rest2.dropWhile isSpace) with
          | some (h, ':' :: rest3) =>
              match parse2Digit rest3 with
              | some (mi, ':' :: rest4) =>
                  match parse2Digit rest4 with
                  | some (sec, []) =>
                      if 1 ≤ m ∧ m ≤ 12 ∧ 1 ≤ d ∧ d ≤ daysInMonth1900 m ∧
                          h ≤ 23 ∧ mi ≤ 59 ∧ sec ≤ 61 then
                        some (m, d, h, mi, sec)
                      else none
                  | _ => none
              | _ => none
          | _ => none
      | _ => none
  | _ => none

/-- `_parse_datetime` for one label: strip, fix the end-of-day marker,
parse `month/day hour:minute:second` and attach the caller-supplied year
(`x.replace(year=self.year)` is applied to every parsed label); `none`
models NaT, a label dropped from that series. -/
def parseDateTimeLabel (year : ℕ) (s : List Char) : Option ParsedDT :=
  (parseMDHMS (fix24Hour (stripEnds s))).map fun v =>
    { year := year, month := v.1, day := v.2.1, hour := v.2.2.1,
      minute := v.2.2.2.1, second := v.2.2.2.2 }

/-- C8 (code bug).  On the standard EnergyPlus double-space label
`"07/21  24:00:00"` the normalizer yields `07/21 00:00:00` — the **same**
calendar day, because `split(' 24:00:00')[0]` leaves `"07/21 "` with a
trailing space, `strptime('%m/%d')` rejects it, and the fallback merely
rewrites the time literal.  On the single-space variant the next-day
rollover does happen, and `12/31 24:00:00` wraps to `01/01` of the *same*
attached year. -/
theorem parse_datetime_24h_not_next_day :
    parseDateTimeLabel 2020
        ['0', '7', '/', '2', '1', ' ', ' ', '2', '4', ':', '0', '0', ':', '0', '0'] =
      some ⟨2020, 7, 21, 0, 0, 0⟩ ∧
    parseDateTimeLabel 2020
        ['0', '7', '/', '2', '1', ' ', '2', '4', ':', '0', '0', ':', '0', '0'] =
      some ⟨2020, 7, 22, 0, 0, 0⟩ ∧
    parseDateTimeLabel 2020
        ['1', '2', '/', '3', '1', ' ', '2', '4', ':', '0', '0', ':', '0', '0'] =
      some ⟨2020, 1, 1, 0, 0, 0⟩ := by
  refine ⟨?_, ?_, ?_⟩ <;> decide

/-! ### Claim C2: are AWD and DI zone-uniform? -/

/-- `arctan √3 = π/3`. -/
lemma arctan_sqrt_three : Real.arctan (Real.sqrt 3) = Real.pi / 3 := by
  rw [← Real.tan_pi_div_three]
  exact Real.arctan_tan (by linarith [Real.pi_pos]) (by linarith [Real.pi_pos])

/-- `x ** 1.5` for a positive base. -/
lemma rpow_one_point_five (x : ℝ) (hx : 0 < x) :
    x ^ (1.5 : ℝ) = x * Real.sqrt x := by
  rw [show (1.5 : ℝ) = 1 + 1 / 2 by norm_num, Real.rpow_add hx, Real.rpow_one,
    ← Real.sqrt_eq_rpow]

/-- The Stull wet-bulb temperature at 30 °C outdoor air is strictly larger
at 80 % relative humidity than at 50 % — the quantity `calculate_wet_bulb
_temperature` feeds into DI genuinely depends on the zone humidity. -/
lemma wetBulb_30_50_lt_30_80 :
    calculateWetBulbTemperature 30 50 < calculateWetBulbTemperature 30 80 := by
  rw [calculateWetBulbTemperature, calculateWetBulbTemperature]
  push_cast
  have e80 : (80 : ℝ) ^ (1.5 : ℝ) = 320 * Real.sqrt 5 := by
    rw [rpow_one_point_five 80 (by norm_num), show (80 : ℝ) = 4 ^ 2 * 5 by norm_num,
      Real.sqrt_mul (by positivity), Real.sqrt_sq (by norm_num)]
    ring
  have e50 : (50 : ℝ) ^ (1.5 : ℝ) = 250 * Real.sqrt 2 := by
    rw [rpow_one_point_five 50 (by norm_num), show (50 : ℝ) = 5 ^ 2 * 2 by norm_num,
      Real.sqrt_mul (by positivity), Real.sqrt_sq (by norm_num)]
    ring
  rw [e80, e50]
  have h5 : (2.236 : ℝ) ≤ Real.sqrt 5 := by
    rw [Real.le_sqrt (by norm_num) (by norm_num)]
    norm_num
  have h2 : Real.sqrt 2 ≤ 1.41422 := by
    rw [Real.sqrt_le_left (by norm_num)]
    norm_num
  have hA : Real.arctan (0.151977 * Real.sqrt (50 + 8.313659)) <
      Real.arctan (0.151977 * Real.sqrt (80 + 8.313659)) := by
    have := Real.sqrt_lt_sqrt (by norm_num : (0 : ℝ) ≤ 50 + 8.313659)
      (by norm_num : (50 : ℝ) + 8.313659 < 80 + 8.313659)
    exact Real.arctan_strictMono (by nlinarith [this])
  have hB : Real.arctan (30 + 50) < Real.arctan ((30 : ℝ) + 80) :=
    Real.arctan_strictMono (by norm_num)
  have hs3 : Real.sqrt 3 < 1.8 := by
    rw [Real.sqrt_lt' (by norm_num)]
    norm_num
  have hC2 : Real.arctan ((80 : ℝ) - 1.676331) < Real.pi / 2 :=
    Real.arctan_lt_pi_div_two _
  have hC1 : Real.pi / 3 < Real.arctan ((50 : ℝ) - 1.676331) := by
    rw [← arctan_sqrt_three]
    exact Real.arctan_strictMono (by nlinarith [hs3])
  have hD2 : Real.pi / 3 < Real.arctan (0.023101 * (80 : ℝ)) := by
    rw [← arctan_sqrt_three]
    exact Real.arctan_strictMono (by nlinarith [hs3])
  have hD1u : Real.arctan (0.023101 * (50 : ℝ)) < Real.pi / 2 :=
    Real.arctan_lt_pi_div_two _
  have hD1p : 0 < Real.arctan (0.023101 * (50 : ℝ)) := by
    rw [show (0 : ℝ) = Real.arctan 0 by rw [Real.arctan_zero]]
    exact Real.arctan_strictMono (by norm_num)
  have hprod2 : (320 * 2.236) * (Real.pi / 3) ≤ (320 * Real.sqrt 5) *
      Real.arctan (0.023101 * (80 : ℝ)) :=
    mul_le_mul (by nlinarith [h5]) (le_of_lt hD2) (by positivity) (by positivity)
  have hprod1 : (250 * Real.sqrt 2) * Real.arctan (0.023101 * (50 : ℝ)) ≤
      (250 * 1.41422) * (Real.pi / 2) :=
    mul_le_mul (by nlinarith [h2]) (le_of_lt hD1u) (le_of_lt hD1p) (by norm_num)
  have hq2 : (391838e-8 : ℝ) * (320 * 2.236 * (Real.pi / 3)) ≤
      391838e-8 * (320 * Real.sqrt 5 * Real.arctan (0.023101 * (80 : ℝ))) :=
    mul_le_mul_of_nonneg_left (by linarith [hprod2]) (by norm_num)
  have hq1 : (391838e-8 : ℝ) *
        (250 * Real.sqrt 2 * Real.arctan (0.023101 * (50 : ℝ))) ≤
      391838e-8 * (250 * 1.41422 * (Real.pi / 2)) :=
    mul_le_mul_of_nonneg_left (by linarith [hprod1]) (by norm_num)
  ring_nf
  ring_nf at hq1 hq2 hA hB hC1 hC2
  linarith [Real.pi_pos, hA, hB, hC2, hC1, hq2, hq1]

/-- Two zones at the same timestamp with the same outdoor dry bulb but
different zone relative humidities. -/
def diRows : List DataRow :=
  [{ dateTime := 0, zone := "A", operativeTemperature := some 25,
     relativeHumidity := some 50, occupancy := some 1, outdoorDryBulb := some 30 },
   { dateTime := 0, zone := "B", operativeTemperature := some 25,
     relativeHumidity := some 80, occupancy := some 1, outdoorDryBulb := some 30 }]

/-- C2 (code bug, DI half).  The spec and the code's own comment
(`aggfunc='first'  # DI is environmental, same for all zones`) say DI is
identical across zones at a timestamp, but `calculate_discomfort_index`
feeds the **zone** relative humidity into the wet-bulb formula: two zones
with the same outdoor temperature 30 °C but humidities 50 % and 80 % get
different DI values at the same timestamp.  (AWD is genuinely
zone-uniform: its grid has the single `Environment` column.) -/
theorem di_not_zone_uniform :
    (calculateDiscomfortIndex diRows).cell 0 "A" ≠
      (calculateDiscomfortIndex diRows).cell 0 "B" := by
  have hA : (calculateDiscomfortIndex diRows).cell 0 "A" =
      some (0.5 * (((30 : ℚ) : ℝ) + calculateWetBulbTemperature 30 50)) := rfl
  have hB : (calculateDiscomfortIndex diRows).cell 0 "B" =
      some (0.5 * (((30 : ℚ) : ℝ) + calculateWetBulbTemperature 30 80)) := rfl
  rw [hA, hB]
  intro h
  have := Option.some_inj.1 h
  have hlt := wetBulb_30_50_lt_30_80
  nlinarith [this, hlt]

/-! ### Claim C7: DDH -/

/-- The claim's upper comfort limit: `Top_up = (0.33*rm + 18.8) + 4`,
overridden to `18.0` when the running mean is below 10, otherwise clamped
to at most `32.7`. -/
def specTopUp (theta : ℚ) : ℚ :=
  if theta < 10 then 18 else min ((0.33 * theta + 18.8) + 4) 32.7

/-- The claim's per-zone DDH, walking the zone's time-ordered series: the
running mean is the mean of the trailing window of the last (up to) 168
outdoor samples including the current one (so at least 1 sample), and only
timestamps with a positive occupancy contribute
`max(operative_temperature - Top_up, 0)`. -/
def specDdhGo (histOut : List ℚ) : List DataRow → ℚ
  | [] => 0
  | r :: rest =>
      ((if gtZero r.occupancy then
          max (r.operativeTemperature.getD 0 -
            specTopUp (((r.outdoorDryBulb.getD 0 :: histOut).take 168).sum /
              ((r.outdoorDryBulb.getD 0 :: histOut).take 168).length)) 0
        else 0)) + specDdhGo (r.outdoorDryBulb.getD 0 :: histOut) rest

/-- The claim's per-zone DDH scalar over the zone's full series. -/
def specDdh (xs : List DataRow) : ℚ := specDdhGo [] xs

lemma topUpOf_eq_specTopUp (theta : ℚ) : topUpOf theta = specTopUp theta := by
  rw [topUpOf, specTopUp]
  by_cases h : theta < 10
  · rw [if_pos h, if_pos h]
    norm_num
  · rw [if_neg h, if_neg h]

lemma specDdhGo_nonneg (xs : List DataRow) : ∀ histOut, 0 ≤ specDdhGo histOut xs := by
  induction xs with
  | nil => intro histOut; rw [specDdhGo]
  | cons r rest ih =>
      intro histOut
      rw [specDdhGo]
      have h1 : (0:ℚ) ≤ if gtZero r.occupancy then
          max (r.operativeTemperature.getD 0 -
            specTopUp (((r.outdoorDryBulb.getD 0 :: histOut).take 168).sum /
              ((r.outdoorDryBulb.getD 0 :: histOut).take 168).length)) 0
        else 0 := by
        by_cases h : gtZero r.occupancy
        · rw [if_pos h]
          exact le_max_right _ _
        · rw [if_neg h]
      have h2 := ih (r.outdoorDryBulb.getD 0 :: histOut)
      linarith

lemma mem_insertByTime {x r : DataRow} {l : List DataRow} :
    x ∈ insertByTime r l ↔ x = r ∨ x ∈ l := by
  induction l with
  | nil => simp [insertByTime]
  | cons a t ih =>
      rw [insertByTime]
      by_cases h : r.dateTime < a.dateTime
      · rw [if_pos h]
        simp
      · rw [if_neg h]
        simp [ih]
        tauto

lemma mem_sortByTime_aux (l : List DataRow) :
    ∀ (acc : List DataRow) (x : DataRow),
      x ∈ l.foldl (fun a r => insertByTime r a) acc ↔ x ∈ acc ∨ x ∈ l := by
  induction l with
  | nil => simp
  | cons r t ih =>
      intro acc x
      rw [List.foldl_cons, ih, mem_insertByTime]
      simp
      tauto

lemma mem_sortByTime {x : DataRow} {l : List DataRow} :
    x ∈ sortByTime l ↔ x ∈ l := by
  rw [sortByTime, mem_sortByTime_aux]
  simp

lemma zoneDdh_zone {z : String} (xs : List DataRow)
    (h : ∀ r ∈ xs, r.zone = z) :
    ∀ (hist : List (Option ℚ)), ∀ e ∈ zoneDdh hist xs, e.2.1 = z := by
  induction xs with
  | nil => intro hist e he; simp [zoneDdh] at he
  | cons r rest ih =>
      intro hist e he
      rw [zoneDdh] at he
      rcases List.mem_cons.1 he with he | he
      · rw [he]
        exact h r (by simp)
      · exact ih (fun r' hr' => h r' (by simp [hr'])) _ e he

/-- With complete outdoor/operative data, the per-zone walk produces the
claim's contributions: the non-NaN values of the zone's DDH entries sum to
the claim's per-zone DDH. -/
lemma zoneDdh_values_sum (xs : List DataRow) :
    ∀ (histOut : List ℚ),
      (∀ r ∈ xs, r.outdoorDryBulb.isSome ∧ r.operativeTemperature.isSome) →
      ((zoneDdh (histOut.map some) xs).filterMap fun e => e.2.2).sum =
        specDdhGo histOut xs := by
  induction xs with
  | nil => intro histOut _; simp [zoneDdh, specDdhGo]
  | cons r rest ih =>
      intro histOut hcomp
      obtain ⟨o, ho⟩ := Option.isSome_iff_exists.1 (hcomp r (by simp)).1
      obtain ⟨tp, htp⟩ := Option.isSome_iff_exists.1 (hcomp r (by simp)).2
      rw [zoneDdh, specDdhGo]
      have hhist : r.outdoorDryBulb :: histOut.map some = (o :: histOut).map some := by
        rw [List.map_cons, ho]
      have hwin : ((r.outdoorDryBulb :: histOut.map some).take 168).filterMap id =
          (o :: histOut).take 168 := by
        rw [hhist, ← List.map_take, List.filterMap_map]
        exact List.filterMap_some _
      have hmean : meanQ (((r.outdoorDryBulb :: histOut.map some).take 168).filterMap id) =
          some (((o :: histOut).take 168).sum / ((o :: histOut).take 168).length) := by
        rw [hwin, meanQ, if_neg (by rw [List.take_succ_cons]; exact List.cons_ne_nil _ _)]
      have hval : ddhVal r (meanQ
          (((r.outdoorDryBulb :: histOut.map some).take 168).filterMap id)) =
          some (max (tp - topUpOf (((o :: histOut).take 168).sum /
            ((o :: histOut).take 168).length)) 0 *
            (if gtZero r.occupancy then 1 else 0)) := by
        rw [hmean, ddhVal, htp]
        rfl
      rw [List.filterMap_cons, hval]
      rw [List.sum_cons]
      have hrest := ih (o :: histOut) (fun r' hr' => hcomp r' (by simp [hr']))
      rw [hhist, hrest, ho, htp]
      simp only [Option.getD_some]
      rw [topUpOf_eq_specTopUp]
      by_cases hocc : gtZero r.occupancy
      · rw [if_pos hocc, if_pos hocc, mul_one]
      · rw [if_neg hocc, if_neg hocc, mul_zero]

/-- On a duplicate-free index containing `a`, an indicator sum collapses to
the single matching term. -/
lemma sum_map_ite_eq {ts : List ℕ} {a : ℕ} (x : ℚ) (hnd : ts.Nodup)
    (ha : a ∈ ts) :
    (ts.map fun t => if a = t then x else 0).sum = x := by
  induction ts with
  | nil => simp at ha
  | cons b t ih =>
      rw [List.map_cons, List.sum_cons]
      rcases List.mem_cons.1 ha with h | h
      · rw [if_pos h]
        have hz : (t.map fun u => if a = u then x else (0 : ℚ)).sum = 0 := by
          refine List.sum_eq_zero ?_
          intro y hy
          rw [List.mem_map] at hy
          obtain ⟨u, hu, rfl⟩ := hy
          refine if_neg fun he => (List.nodup_cons.1 hnd).1 ?_
          rw [← h, he]
          exact hu
        rw [hz, add_zero]
      · have hb : ¬a = b := fun he => (List.nodup_cons.1 hnd).1 (he ▸ h)
        rw [if_neg hb, ih (List.nodup_cons.1 hnd).2 h, zero_add]

/-- Pointwise sums split under `map`. -/
lemma sum_map_add (ts : List ℕ) (f g : ℕ → ℚ) :
    (ts.map fun t => f t + g t).sum = (ts.map f).sum + (ts.map g).sum := by
  induction ts with
  | nil => simp
  | cons a t ih =>
      simp only [List.map_cons, List.sum_cons, ih]
      ring

/-- Double counting: over a duplicate-free index covering the timestamps of
every non-null zone-`z` entry, summing the pivot groups timestamp by
timestamp equals summing the zone's entry values directly. -/
lemma sum_over_index (z : String) (es : List (Entry ℚ)) :
    ∀ ts : List ℕ, ts.Nodup →
      (∀ e ∈ es, e.2.1 = z → e.2.2.isSome → e.1 ∈ ts) →
      (ts.map fun t => (es.filterMap fun e =>
          if e.1 = t ∧ e.2.1 = z then e.2.2 else none).sum).sum =
        (es.filterMap fun e => if e.2.1 = z then e.2.2 else none).sum := by
  induction es with
  | nil => intro ts _ _; simp
  | cons e rest ih =>
      intro ts hnd hmem
      have hmemr : ∀ e' ∈ rest, e'.2.1 = z → e'.2.2.isSome → e'.1 ∈ ts :=
        fun e' he' => hmem e' (List.mem_cons_of_mem _ he')
      by_cases hz : e.2.1 = z
      · cases hv : e.2.2 with
        | none =>
            have hpoint : ∀ t, ((e :: rest).filterMap fun e' =>
                if e'.1 = t ∧ e'.2.1 = z then e'.2.2 else none) =
                (rest.filterMap fun e' =>
                  if e'.1 = t ∧ e'.2.1 = z then e'.2.2 else none) := by
              intro t
              refine List.filterMap_cons_none ?_
              by_cases hc : e.1 = t ∧ e.2.1 = z
              · rw [if_pos hc, hv]
              · rw [if_neg hc]
            have hR : ((e :: rest).filterMap fun e' =>
                if e'.2.1 = z then e'.2.2 else none) =
                (rest.filterMap fun e' => if e'.2.1 = z then e'.2.2 else none) :=
              List.filterMap_cons_none (by rw [if_pos hz, hv])
            simp only [hpoint, hR]
            exact ih ts hnd hmemr
        | some v =>
            have hpoint : ∀ t, ((e :: rest).filterMap fun e' =>
                if e'.1 = t ∧ e'.2.1 = z then e'.2.2 else none).sum =
                (if e.1 = t then v else 0) +
                  (rest.filterMap fun e' =>
                    if e'.1 = t ∧ e'.2.1 = z then e'.2.2 else none).sum := by
              intro t
              by_cases hc : e.1 = t
              · rw [List.filterMap_cons_some (by rw [if_pos ⟨hc, hz⟩, hv]),
                  List.sum_cons, if_pos hc]
              · rw [List.filterMap_cons_none (by rw [if_neg fun hand => hc hand.1]),
                  if_neg hc, zero_add]
            have hR : ((e :: rest).filterMap fun e' =>
                if e'.2.1 = z then e'.2.2 else none).sum =
                v + (rest.filterMap fun e' =>
                  if e'.2.1 = z then e'.2.2 else none).sum := by
              rw [List.filterMap_cons_some (by rw [if_pos hz, hv]), List.sum_cons]
            simp only [hpoint, hR]
            rw [sum_map_add, ih ts hnd hmemr]
            have he1 : e.1 ∈ ts :=
              hmem e (List.mem_cons_self _ _) hz (by rw [hv]; rfl)
            rw [sum_map_ite_eq v hnd he1]
      · have hpoint : ∀ t, ((e :: rest).filterMap fun e' =>
            if e'.1 = t ∧ e'.2.1 = z then e'.2.2 else none) =
            (rest.filterMap fun e' =>
              if e'.1 = t ∧ e'.2.1 = z then e'.2.2 else none) := by
          intro t
          exact List.filterMap_cons_none (by rw [if_neg fun hand => hz hand.2])
        have hR : ((e :: rest).filterMap fun e' =>
            if e'.2.1 = z then e'.2.2 else none) =
            (rest.filterMap fun e' => if e'.2.1 = z then e'.2.2 else none) :=
          List.filterMap_cons_none (by rw [if_neg hz])
        simp only [hpoint, hR]
        exact ih ts hnd hmemr

/-- Generic zone isolation: in a concatenation of per-zone entry lists
whose entries carry their own zone, filtering for zone `z` returns exactly
zone `z`'s values. -/
lemma flatten_zone_values_aux (E : String → List (Entry ℚ))
    (hE : ∀ z', ∀ e ∈ E z', e.2.1 = z') (z : String) :
    ∀ L : List String, L.Nodup → z ∈ L →
      ((L.map E).flatten.filterMap fun e => if e.2.1 = z then e.2.2 else none) =
        (E z).filterMap fun e => e.2.2 := by
  intro L
  induction L with
  | nil => intro _ hz; simp at hz
  | cons z1 t ih =>
      intro hnd hz
      rw [List.map_cons, List.flatten_cons, List.filterMap_append]
      rcases List.mem_cons.1 hz with h | h
      · subst h
        have h1 : ((E z).filterMap fun e => if e.2.1 = z then e.2.2 else none) =
            (E z).filterMap fun e => e.2.2 :=
          List.filterMap_congr fun e he => by rw [if_pos (hE z e he)]
        have h2 : (((t.map E).flatten).filterMap fun e =>
            if e.2.1 = z then e.2.2 else none) = [] := by
          rw [List.filterMap_eq_nil_iff]
          intro e he
          rw [List.mem_flatten] at he
          obtain ⟨l, hl, hel⟩ := he
          rw [List.mem_map] at hl
          obtain ⟨z2, hz2, rfl⟩ := hl
          have : e.2.1 = z2 := hE z2 e hel
          refine if_neg fun hez => ?_
          refine (List.nodup_cons.1 hnd).1 ?_
          have hzz : z = z2 := hez.symm.trans this
          rw [hzz]
          exact hz2
        rw [h1, h2, List.append_nil]
      · have hz1 : ¬z1 = z := fun he =>
          (List.nodup_cons.1 hnd).1 (he ▸ h)
        have h1 : ((E z1).filterMap fun e => if e.2.1 = z then e.2.2 else none) = [] := by
          rw [List.filterMap_eq_nil_iff]
          intro e he
          rw [hE z1 e he]
          exact if_neg hz1
        rw [h1, List.nil_append]
        exact ih (List.nodup_cons.1 hnd).2 h

/-- `(aggSum xs).getD 0` is just the sum (an absent pivot group sums to 0
after `fillna`). -/
lemma aggSum_getD (xs : List ℚ) : (aggSum xs).getD 0 = xs.sum := by
  rw [aggSum]
  by_cases h : xs = []
  · simp [h]
  · rw [if_neg h]
    rfl

/-- A `filterMap` that always produces a value is a `map`. -/
lemma filterMap_some_eq_map {α β : Type} (f : α → β) (l : List α) :
    (l.filterMap fun x => some (f x)) = l.map f := by
  induction l with
  | nil => rfl
  | cons a t ih => simp [ih]

/-- The zone filter of the long dataframe, with the `decide` coercion of
`List.filter` unfolded. -/
lemma mem_zone_filter {r : DataRow} {rows : List DataRow} {z : String} :
    r ∈ rows.filter (fun r' => r'.zone = z) ↔ r ∈ rows ∧ r.zone = z := by
  rw [List.mem_filter]
  simp

/-- The first entry of a zone walk over a complete series carries a
non-null value. -/
lemma zoneDdh_head_some (r : DataRow) (rest : List DataRow)
    (hist : List (Option ℚ)) (ho : r.outdoorDryBulb.isSome)
    (htp : r.operativeTemperature.isSome) :
    ∃ v, zoneDdh hist (r :: rest) =
      (r.dateTime, r.zone, some v) :: zoneDdh (r.outdoorDryBulb :: hist) rest := by
  obtain ⟨o, ho'⟩ := Option.isSome_iff_exists.1 ho
  obtain ⟨tp, htp'⟩ := Option.isSome_iff_exists.1 htp
  have hwin : (((r.outdoorDryBulb :: hist).take 168).filterMap id) =
      o :: ((hist.take 167).filterMap id) := by
    rw [List.take_succ_cons, List.filterMap_cons_some (by rw [ho']; rfl)]
  have hmean : meanQ (((r.outdoorDryBulb :: hist).take 168).filterMap id) =
      some ((o :: (hist.take 167).filterMap id).sum /
        (o :: (hist.take 167).filterMap id).length) := by
    rw [hwin, meanQ, if_neg (List.cons_ne_nil _ _)]
  refine ⟨max (tp - topUpOf ((o :: (hist.take 167).filterMap id).sum /
      (o :: (hist.take 167).filterMap id).length)) 0 *
      (if gtZero r.occupancy then 1 else 0), ?_⟩
  rw [zoneDdh, hmean, ddhVal, htp']
  rfl

/-- The exported per-zone DDH total equals the claim's per-zone DDH over
the zone's time-sorted series. -/
lemma ddh_agg_value (rows : List DataRow) (z : String) (hz : z ∈ zonesOf rows)
    (hcomp : ∀ r ∈ rows, r.zone = z →
      r.outdoorDryBulb.isSome ∧ r.operativeTemperature.isSome) :
    ((calculateDegreeWeightedDiscomfortHours rows).index.filterMap fun t =>
        (calculateDegreeWeightedDiscomfortHours rows).cell t z).sum =
      specDdh (sortByTime (rows.filter fun r => r.zone = z)) := by
  set es := (((zonesOf rows).map fun z2 =>
    zoneDdh [] (sortByTime (rows.filter fun r => r.zone = z2))).flatten) with hes
  have hcell : ∀ t, (calculateDegreeWeightedDiscomfortHours rows).cell t z =
      some (((pivotAgg aggSum es).cell t z).getD 0) := fun _ => rfl
  have hidx : (calculateDegreeWeightedDiscomfortHours rows).index =
      (es.filterMap fun e => if e.2.2.isSome then some e.1 else none).dedup := rfl
  simp only [hcell, hidx]
  rw [filterMap_some_eq_map (fun t => ((pivotAgg aggSum es).cell t z).getD 0)]
  have hcell2 : ∀ t, (pivotAgg aggSum es).cell t z =
      aggSum (es.filterMap fun e =>
        if e.1 = t ∧ e.2.1 = z then e.2.2 else none) := fun _ => rfl
  simp only [hcell2, aggSum_getD]
  rw [sum_over_index z es _ (List.nodup_dedup _) ?hmem]
  case hmem =>
    intro e he hez hsome
    rw [List.mem_dedup, List.mem_filterMap]
    exact ⟨e, he, by rw [if_pos hsome]⟩
  have hE : ∀ z2, ∀ e ∈ zoneDdh [] (sortByTime (rows.filter fun r => r.zone = z2)),
      e.2.1 = z2 := by
    intro z2
    refine zoneDdh_zone _ (fun r hr => ?_) []
    exact (mem_zone_filter.1 (mem_sortByTime.1 hr)).2
  rw [hes, flatten_zone_values_aux _ hE z (zonesOf rows) (List.nodup_dedup _) hz]
  have hcomp2 : ∀ r ∈ sortByTime (rows.filter fun r => r.zone = z),
      r.outdoorDryBulb.isSome ∧ r.operativeTemperature.isSome := by
    intro r hr
    have := mem_zone_filter.1 (mem_sortByTime.1 hr)
    exact hcomp r this.1 this.2
  have := zoneDdh_values_sum (sortByTime (rows.filter fun r => r.zone = z)) [] hcomp2
  rw [show List.map some ([] : List ℚ) = ([] : List (Option ℚ)) from rfl] at this
  rw [this]
  rfl

/-- C7.  For every zone with complete outdoor/operative data, the exported
DDH is a single per-zone scalar: the trailing 168-sample (min 1) running
mean of the outdoor dry bulb gives `Top_up = (0.33*rm + 18.8) + 4`,
overridden to 18.0 below a 10 °C running mean and otherwise clamped to
32.7, and DDH sums `max(operative_temperature - Top_up, 0)` over exactly
the occupied timestamps; the PowerBI aggregate holds one row per zone with
an empty datetime (never a time series), and the scalar is non-negative. -/
theorem ddh_aggregated_per_zone (sim z : String) (rows : List DataRow)
    (hz : z ∈ zonesOf rows)
    (hcomp : ∀ r ∈ rows, r.zone = z →
      r.outdoorDryBulb.isSome ∧ r.operativeTemperature.isSome) :
    ({ simulation := sim, indicator := "DDH", dateTime := none, zone := z,
        value := some (specDdh (sortByTime (rows.filter fun r => r.zone = z))) } :
          ExportRow) ∈
        aggregateDdh sim (calculateDegreeWeightedDiscomfortHours rows) ∧
      0 ≤ specDdh (sortByTime (rows.filter fun r => r.zone = z)) ∧
      (∀ row ∈ aggregateDdh sim (calculateDegreeWeightedDiscomfortHours rows),
        row.dateTime = none ∧ row.indicator = "DDH") ∧
      (aggregateDdh sim (calculateDegreeWeightedDiscomfortHours rows)).length =
        (calculateDegreeWeightedDiscomfortHours rows).cols.length := by
  have hcolz : z ∈ (calculateDegreeWeightedDiscomfortHours rows).cols := by
    obtain ⟨r, hr, hrz⟩ : ∃ r ∈ rows, r.zone = z := by
      have := List.mem_dedup.1 hz
      rw [List.mem_map] at this
      obtain ⟨r, hr, hrz⟩ := this
      exact ⟨r, hr, hrz⟩
    have hrf : r ∈ rows.filter fun r2 => r2.zone = z := mem_zone_filter.2 ⟨hr, hrz⟩
    have hrs : r ∈ sortByTime (rows.filter fun r2 => r2.zone = z) :=
      mem_sortByTime.2 hrf
    obtain ⟨r0, rest0, hs⟩ :=
      List.exists_cons_of_ne_nil (List.ne_nil_of_mem hrs)
    have hr0 : r0 ∈ sortByTime (rows.filter fun r2 => r2.zone = z) := by
      rw [hs]
      exact List.mem_cons_self _ _
    have hr0f := mem_zone_filter.1 (mem_sortByTime.1 hr0)
    obtain ⟨v, hv⟩ := zoneDdh_head_some r0 rest0 []
      (hcomp r0 hr0f.1 hr0f.2).1 (hcomp r0 hr0f.1 hr0f.2).2
    have hcols : (calculateDegreeWeightedDiscomfortHours rows).cols =
        ((((zonesOf rows).map fun z2 =>
          zoneDdh [] (sortByTime (rows.filter fun r2 => r2.zone = z2))).flatten).filterMap
            fun e => if e.2.2.isSome then some e.2.1 else none).dedup := rfl
    rw [hcols, List.mem_dedup, List.mem_filterMap]
    refine ⟨(r0.dateTime, r0.zone, some v), ?_, ?_⟩
    · rw [List.mem_flatten]
      refine ⟨zoneDdh [] (sortByTime (rows.filter fun r2 => r2.zone = z)),
        List.mem_map.2 ⟨z, hz, rfl⟩, ?_⟩
      rw [hs, hv]
      exact List.mem_cons_self _ _
    · simp [hr0f.2]
  refine ⟨?_, specDdhGo_nonneg _ [], ?_, ?_⟩
  · have hval := ddh_agg_value rows z hz hcomp
    rw [← hval]
    exact List.mem_map.2 ⟨z, hcolz, rfl⟩
  · intro row hrow
    obtain ⟨z2, _, rfl⟩ := List.mem_map.1 hrow
    exact ⟨rfl, rfl⟩
  · exact List.length_map _ _

/-- Two rows of one zone: an occupied hour 0.6 °C above the adaptive limit
(outdoor 20 °C gives `Top_up = 29.4`) and an unoccupied hour that must not
contribute. -/
def ddhRowsEx : List DataRow :=
  [{ dateTime := 0, zone := "A", operativeTemperature := some 30,
     relativeHumidity := some 50, occupancy := some 1, outdoorDryBulb := some 20 },
   { dateTime := 1, zone := "A", operativeTemperature := some 40,
     relativeHumidity := some 50, occupancy := some 0, outdoorDryBulb := some 20 }]

/-- Witness for `ddh_aggregated_per_zone`: the aggregate holds the single
row `(A, DDH, empty datetime, 0.6)`. -/
theorem ddh_aggregated_per_zone_witness :
    ({ simulation := "S", indicator := "DDH", dateTime := none, zone := "A",
        value := some 0.6 } : ExportRow) ∈
      aggregateDdh "S" (calculateDegreeWeightedDiscomfortHours ddhRowsEx) := by
  have h := (ddh_aggregated_per_zone "S" "A" ddhRowsEx (by decide) (by decide)).1
  have hsort : sortByTime (ddhRowsEx.filter fun r => r.zone = "A") = ddhRowsEx := by
    decide
  rw [hsort] at h
  have hv : specDdh ddhRowsEx = 0.6 := by
    have h1 : (([20] : List ℚ).take 168) = [20] :=
      List.take_of_length_le (by norm_num)
    have h2 : (([20, 20] : List ℚ).take 168) = [20, 20] :=
      List.take_of_length_le (by norm_num)
    simp only [specDdh, specDdhGo, ddhRowsEx, Option.getD_some, gtZero]
    norm_num [h1, h2, specTopUp]
  rw [hv] at h
  exact h

end ClimaMetrics